import Mathlib

/-!
Verification of the branch-predictor library in `src/predictor.cpp`
(UCSD CSE240A branch-prediction lab).

The predictor state is embedded shallowly: tables become functions
`Nat → Nat` (resp. `Nat → Nat → TageEntry`) with pointwise update,
machine integers become `Nat` with explicit masking where the source
masks (and `% 2^32` where 32-bit overflow matters), and the `rand()`
stream consumed by the TAGE useful-counter decay becomes an explicit
`List Nat` of draw values threaded through the training functions.
-/

namespace BP

/-! ## Shared constants

The numeric constants below (`NOTTAKEN`/`TAKEN`, the 2-bit counter
states `SN..ST`, the 3-bit counter states `SSSN..SSST`) live in
`predictor.h`, which is not part of the sources; their values are
fixed by the specification (§6): `NOTTAKEN=0, TAKEN=1`,
`SN=0, WN=1, WT=2, ST=3`, `SSSN=0 … SSST=7`. -/

/-- Modelled from the spec: `NOTTAKEN = 0` (predictor.h is not in the sources). -/
def NOTTAKEN : Nat := 0

/-- Modelled from the spec: `TAKEN = 1` (predictor.h is not in the sources). -/
def TAKEN : Nat := 1

/-- Modelled from the spec: 2-bit state strongly-not-taken. -/
def SN : Nat := 0

/-- Modelled from the spec: 2-bit state weakly-not-taken. -/
def WN : Nat := 1

/-- Modelled from the spec: 2-bit state weakly-taken. -/
def WT : Nat := 2

/-- Modelled from the spec: 2-bit state strongly-taken. -/
def ST : Nat := 3

/-- Modelled from the spec: 3-bit counter states `SSSN=0 … SSST=7`. -/
def SSSN : Nat := 0

/-- Modelled from the spec: 3-bit state 1. -/
def SSN : Nat := 1

/-- Modelled from the spec: 3-bit state 2. -/
def NS : Nat := 2

/-- Modelled from the spec: 3-bit state 3. -/
def NW : Nat := 3

/-- Modelled from the spec: 3-bit state 4. -/
def TW : Nat := 4

/-- Modelled from the spec: 3-bit state 5. -/
def TS : Nat := 5

/-- Modelled from the spec: 3-bit state 6. -/
def SST : Nat := 6

/-- Modelled from the spec: 3-bit state 7. -/
def SSST : Nat := 7

/-- Modelled from the spec: the variant tags `STATIC, GSHARE, TOURNAMENT,
CUSTOM` of predictor.h, as a closed enumeration. -/
inductive BPVariant where
  | STATIC
  | GSHARE
  | TOURNAMENT
  | CUSTOM
deriving DecidableEq, Repr

/-! ## Configuration constants (predictor.cpp lines 12-38, 56) -/

def T_LHT_BITS : Nat := 11
def T_LHT_ENTRIES : Nat := 1 <<< T_LHT_BITS
def T_LPT_ENTRIES : Nat := 1 <<< T_LHT_BITS
def T_LPT_COUNTER_MAX : Nat := 7
def T_LPT_INIT : Nat := 1
def T_GHR_BITS : Nat := 13
def T_GPT_ENTRIES : Nat := 1 <<< T_GHR_BITS
def T_GPT_COUNTER_MAX : Nat := 3
def T_GPT_INIT : Nat := 1
def T_CHOOSER_ENTRIES : Nat := 1 <<< T_GHR_BITS
def T_CHOOSER_MAX : Nat := 3
def T_CHOOSER_INIT : Nat := 1

def TAGE_BIMODAL_BITS : Nat := 15
def TAGE_BIMODAL_SIZE : Nat := 1 <<< TAGE_BIMODAL_BITS
def TAGE_NUM_TAGGED : Nat := 7
def TAGE_TAGGED_BITS : Nat := 12
def TAGE_TAGGED_SIZE : Nat := 1 <<< TAGE_TAGGED_BITS

/-- In C this is the textual macro `TAGE_TAGGED_BITS - 5`; at its single
use site `(1u << TAGE_TAG_BITS) - 1` it expands to `(1u << 12 - 5) - 1`
which parses as `(1u << (12 - 5)) - 1 = 0x7F` by operator precedence. -/
def TAGE_TAG_BITS : Nat := TAGE_TAGGED_BITS - 5

def TAGE_CTR_MAX : Nat := 3
def TAGE_CTR_INIT : Nat := 4
def TAGE_U_MAX : Nat := 3
def TAGE_U_INIT : Nat := 0

/-- Global `ghistoryBits` (predictor.cpp line 56), fixed at its default 15. -/
def ghistoryBits : Nat := 15

/-! ## Table helpers: pointwise function update -/

/-- Pointwise update of a one-dimensional table. -/
def upd (f : Nat → Nat) (i v : Nat) : Nat → Nat :=
  fun j => if j = i then v else f j

/-! ## Saturating-counter switches (macros PREDICT2b/3b, COUNTERUPDATE2b/3b) -/

/-- PREDICT2b (predictor.cpp lines 120-137).  The source `WT` arm falls
through to `ST` for lack of a `break`; both arms set `TAKEN`, so the
result is unchanged.  The `default` arm yields `NOTTAKEN`. -/
def predict2b (counter : Nat) : Nat :=
  if counter = WN then NOTTAKEN
  else if counter = SN then NOTTAKEN
  else if counter = WT then TAKEN
  else if counter = ST then TAKEN
  else NOTTAKEN

/-- PREDICT3b (predictor.cpp lines 139-169); the `default` arm yields
`NOTTAKEN`. -/
def predict3b (counter : Nat) : Nat :=
  if counter = SSSN then NOTTAKEN
  else if counter = SSN then NOTTAKEN
  else if counter = NS then NOTTAKEN
  else if counter = NW then NOTTAKEN
  else if counter = TW then TAKEN
  else if counter = TS then TAKEN
  else if counter = SST then TAKEN
  else if counter = SSST then TAKEN
  else NOTTAKEN

/-- COUNTERUPDATE2b (predictor.cpp lines 171-188); the `default` arm
leaves the counter unchanged. -/
def counterUpdate2b (counter outcome : Nat) : Nat :=
  if counter = WN then (if outcome = TAKEN then WT else SN)
  else if counter = SN then (if outcome = TAKEN then WN else SN)
  else if counter = WT then (if outcome = TAKEN then ST else WN)
  else if counter = ST then (if outcome = TAKEN then ST else WT)
  else counter

/-- COUNTERUPDATE3b (predictor.cpp lines 190-219); the `default` arm
leaves the counter unchanged. -/
def counterUpdate3b (counter outcome : Nat) : Nat :=
  if counter = SSSN then (if outcome = TAKEN then SSN else SSSN)
  else if counter = SSN then (if outcome = TAKEN then NS else SSSN)
  else if counter = NS then (if outcome = TAKEN then NW else SSN)
  else if counter = NW then (if outcome = TAKEN then TW else NS)
  else if counter = TW then (if outcome = TAKEN then TS else NW)
  else if counter = TS then (if outcome = TAKEN then SST else TW)
  else if counter = SST then (if outcome = TAKEN then SSST else TS)
  else if counter = SSST then (if outcome = TAKEN then SSST else SST)
  else counter

/-! ## Gshare (predictor.cpp lines 467-538) -/

structure GshareState where
  bht : Nat → Nat
  ghistory : Nat

/-- init_gshare (lines 468-478): all BHT entries `WN`, history 0. -/
def init_gshare : GshareState :=
  { bht := fun _ => WN, ghistory := 0 }

/-- The gshare BHT index: `(pc & mask) ^ (ghistory & mask)` with
`mask = (1 << ghistoryBits) - 1` (lines 483-486 and 506-509). -/
def gshare_index (s : GshareState) (pc : Nat) : Nat :=
  let bht_entries := 1 <<< ghistoryBits
  let pc_lower_bits := pc &&& (bht_entries - 1)
  let ghistory_lower_bits := s.ghistory &&& (bht_entries - 1)
  pc_lower_bits ^^^ ghistory_lower_bits

/-- gshare_predict (lines 480-501).  The inlined switch is exactly the
PREDICT2b mapping (WN/SN ↦ NOTTAKEN, WT/ST ↦ TAKEN, default NOTTAKEN). -/
def gshare_predict (s : GshareState) (pc : Nat) : Nat :=
  predict2b (s.bht (gshare_index s pc))

/-- train_gshare (lines 503-533): 2-bit saturating update of the indexed
entry (the inlined switch is exactly COUNTERUPDATE2b), then
`ghistory = (ghistory << 1) | outcome` with no mask. -/
def train_gshare (s : GshareState) (pc outcome : Nat) : GshareState :=
  let index := gshare_index s pc
  { bht := upd s.bht index (counterUpdate2b (s.bht index) outcome),
    ghistory := (s.ghistory <<< 1) ||| outcome }

/-! ## Tournament (predictor.cpp lines 375-465) -/

structure TournamentState where
  localHistory : Nat → Nat
  localPred : Nat → Nat
  globalPred : Nat → Nat
  chooser : Nat → Nat
  ghr : Nat

/-- init_tournament (lines 376-396): local histories 0, local counters
`T_LPT_INIT = 1`, global counters `T_GPT_INIT = 1`, chooser
`T_CHOOSER_INIT = 1`, GHR 0. -/
def init_tournament : TournamentState :=
  { localHistory := fun _ => 0,
    localPred := fun _ => T_LPT_INIT,
    globalPred := fun _ => T_GPT_INIT,
    chooser := fun _ => T_CHOOSER_INIT,
    ghr := 0 }

/-- tournament_predict (lines 398-421). -/
def tournament_predict (s : TournamentState) (pc : Nat) : Nat :=
  let lht_index := pc &&& (T_LHT_ENTRIES - 1)
  let local_hist := s.localHistory lht_index
  let local_index := local_hist &&& (T_LPT_ENTRIES - 1)
  let local_taken := predict3b (s.localPred local_index)
  let global_index := s.ghr &&& (T_GPT_ENTRIES - 1)
  let global_taken := predict2b (s.globalPred global_index)
  let prefer_global := predict2b (s.chooser global_index)
  if prefer_global ≠ 0 then global_taken else local_taken

/-- train_tournament (lines 423-457): read pre-update local and global
predictions, update local (3-bit) and global (2-bit) counters, update
the chooser only on disagreement, then shift local history and GHR. -/
def train_tournament (s : TournamentState) (pc outcome : Nat) : TournamentState :=
  let lht_index := pc &&& (T_LHT_ENTRIES - 1)
  let local_hist := s.localHistory lht_index
  let local_index := local_hist &&& (T_LPT_ENTRIES - 1)
  let global_index := s.ghr &&& (T_GPT_ENTRIES - 1)
  let local_taken := predict3b (s.localPred local_index)
  let global_taken := predict2b (s.globalPred global_index)
  let localPred1 := upd s.localPred local_index
    (counterUpdate3b (s.localPred local_index) outcome)
  let globalPred1 := upd s.globalPred global_index
    (counterUpdate2b (s.globalPred global_index) outcome)
  let chooser1 :=
    if local_taken ≠ global_taken then
      if global_taken = outcome then
        upd s.chooser global_index (counterUpdate2b (s.chooser global_index) TAKEN)
      else if local_taken = outcome then
        upd s.chooser global_index (counterUpdate2b (s.chooser global_index) NOTTAKEN)
      else s.chooser
    else s.chooser
  let localHistory1 := upd s.localHistory lht_index
    (((s.localHistory lht_index <<< 1) ||| outcome) &&& (T_LHT_ENTRIES - 1))
  { localHistory := localHistory1,
    localPred := localPred1,
    globalPred := globalPred1,
    chooser := chooser1,
    ghr := ((s.ghr <<< 1) ||| outcome) &&& (T_GPT_ENTRIES - 1) }

/-! ## TAGE (predictor.cpp lines 79-361) -/

/-- History lengths for the 7 tagged tables (line 79). -/
def tage_hist_lengths : List Nat := [4, 8, 16, 32, 64, 128, 256]

structure TageEntry where
  tag : Nat
  ctr : Nat
  u : Nat
deriving DecidableEq, Repr

/-- Pointwise update of a two-dimensional TAGE table. -/
def updT (f : Nat → Nat → TageEntry) (t i : Nat) (e : TageEntry) :
    Nat → Nat → TageEntry :=
  fun a b => if a = t ∧ b = i then e else f a b

structure TageState where
  bimodal : Nat → Nat
  tables : Nat → Nat → TageEntry
  ghist : Nat

/-- get_hist_bits (lines 94-97): low `len` bits of the history, cast to
uint32. -/
def get_hist_bits (hist len : Nat) : Nat :=
  if 64 ≤ len then hist % 2 ^ 32
  else (hist &&& ((1 <<< len) - 1)) % 2 ^ 32

/-- tage_index (lines 100-105); the uint32 product `h * 0x9e3779b9u`
wraps mod `2^32`. -/
def tage_index (pc hist t : Nat) : Nat :=
  let h := get_hist_bits hist (tage_hist_lengths.getD t 0)
  (pc ^^^ ((h * 0x9e3779b9) % 2 ^ 32) ^^^ ((t * 0xabcdef) % 2 ^ 32)) &&&
    (TAGE_TAGGED_SIZE - 1)

/-- tage_tag (lines 108-112): `(pc ^ (h >> (t+1))) & ((1 << TAGE_TAG_BITS) - 1)`. -/
def tage_tag (pc hist t : Nat) : Nat :=
  let h := get_hist_bits hist (tage_hist_lengths.getD t 0)
  (pc ^^^ (h >>> (t + 1))) &&& ((1 <<< TAGE_TAG_BITS) - 1)

/-- init_tage (lines 221-244): bimodal all `WT`, every tagged entry
`{tag := 0xFFFF, ctr := TAGE_CTR_INIT, u := TAGE_U_INIT}`, history 0. -/
def init_tage : TageState :=
  { bimodal := fun _ => WT,
    tables := fun _ _ => { tag := 0xFFFF, ctr := TAGE_CTR_INIT, u := TAGE_U_INIT },
    ghist := 0 }

/-- One iteration of the provider/alternate search loop shared by
tage_predict and train_tage (lines 259-274 and 293-308): on a tag match,
the first match (walking from the longest history down) becomes the
provider, the second becomes the alternate. -/
def tage_scan_step (ghist pc : Nat) (tables : Nat → Nat → TageEntry)
    (acc : Option (Nat × Nat) × Option (Nat × Nat)) (t : Nat) :
    Option (Nat × Nat) × Option (Nat × Nat) :=
  let idx := tage_index pc ghist t
  let tg := tage_tag pc ghist t
  let e := tables t idx
  if e.tag = tg then
    let pred := predict3b e.ctr
    match acc with
    | (none, a) => (some (t, pred), a)
    | (some p, none) => (some p, some (t, pred))
    | (some p, some a) => (some p, some a)
  else acc

/-- The full search loop `for (t = TAGE_NUM_TAGGED - 1; t >= 0; --t)`:
returns `(provider, alternate)`, each as `some (table, prediction)`. -/
def tage_scan (s : TageState) (pc : Nat) :
    Option (Nat × Nat) × Option (Nat × Nat) :=
  [6, 5, 4, 3, 2, 1, 0].foldl (tage_scan_step s.ghist pc s.tables) (none, none)

/-- tage_predict (lines 246-279): provider prediction if any table hit,
else the bimodal prediction. -/
def tage_predict (s : TageState) (pc : Nat) : Nat :=
  let bim_idx := pc &&& (TAGE_BIMODAL_SIZE - 1)
  let bim_pred := predict2b (s.bimodal bim_idx)
  match (tage_scan s pc).1 with
  | some pr => pr.2
  | none => bim_pred

/-- The allocation loop of train_tage (lines 331-346), scanning tables
from shortest history upward.  The first entry with `u == 0` is claimed:
`tag` set, `ctr := TAGE_CTR_INIT + (outcome ? 1 : -1)` then clamped
above at 7 (the `< 0` clamp of the source is dead on the unsigned
field), `u := 0`, and the loop stops.  Each skipped entry (necessarily
`u > 0`) draws one `rand()` value and decays `u` by one exactly when
`rand() & 0x3F == 0`; an exhausted draw list reads as 0. -/
def tage_allocLoop (pc ghist outcome : Nat) :
    List Nat → (Nat → Nat → TageEntry) → List Nat →
    ((Nat → Nat → TageEntry) × List Nat)
  | [], tables, rnd => (tables, rnd)
  | t :: rest, tables, rnd =>
    let idx := tage_index pc ghist t
    let e := tables t idx
    if e.u = 0 then
      let c0 : Nat := if outcome ≠ 0 then TAGE_CTR_INIT + 1 else TAGE_CTR_INIT - 1
      let c1 : Nat := if c0 > 7 then 7 else c0
      (updT tables t idx { tag := tage_tag pc ghist t, ctr := c1, u := 0 }, rnd)
    else
      let r := rnd.headD 0
      let tables2 :=
        if r &&& 0x3F = 0 then updT tables t idx { e with u := e.u - 1 } else tables
      tage_allocLoop pc ghist outcome rest tables2 rnd.tail

/-- train_tage (lines 281-361).  The provider/alternate search runs on
the pre-update state; then either the provider counter (and possibly its
useful counter) is updated, or — with no provider — the bimodal counter
is updated and the allocation loop runs; with a provider but no
alternate the bimodal is nudged directly; finally the global history is
shifted and masked to `ghistoryBits` bits. -/
def train_tage (s : TageState) (pc outcome : Nat) (rnd : List Nat) :
    TageState × List Nat :=
  let bim_idx := pc &&& (TAGE_BIMODAL_SIZE - 1)
  let bim_pred := predict2b (s.bimodal bim_idx)
  let ghist1 := ((s.ghist <<< 1) ||| (outcome &&& 1)) &&& ((1 <<< ghistoryBits) - 1)
  match tage_scan s pc with
  | (some pr, altOpt) =>
    let p := pr.1
    let provider_pred := pr.2
    let idx := tage_index pc s.ghist p
    let e := s.tables p idx
    let e1 := { e with ctr := counterUpdate3b e.ctr outcome }
    let alt_pred := match altOpt with | some a => a.2 | none => bim_pred
    let e2 :=
      if provider_pred = outcome ∧ altOpt.isSome = true ∧ ¬ alt_pred = outcome then
        { e1 with u := counterUpdate2b e1.u TAKEN }
      else e1
    let e3 :=
      if ¬ provider_pred = outcome ∧ altOpt.isSome = true ∧ alt_pred = outcome then
        { e2 with u := counterUpdate2b e2.u NOTTAKEN }
      else e2
    let tables1 := updT s.tables p idx e3
    let bim1 :=
      if altOpt.isSome = true then s.bimodal
      else
        upd s.bimodal bim_idx
          (if outcome = TAKEN then
            (if s.bimodal bim_idx < ST then s.bimodal bim_idx + 1 else s.bimodal bim_idx)
          else
            (if s.bimodal bim_idx > SN then s.bimodal bim_idx - 1 else s.bimodal bim_idx))
    ({ bimodal := bim1, tables := tables1, ghist := ghist1 }, rnd)
  | (none, _) =>
    let bim1 := upd s.bimodal bim_idx (counterUpdate2b (s.bimodal bim_idx) outcome)
    let ar := tage_allocLoop pc s.ghist outcome [0, 1, 2, 3, 4, 5, 6] s.tables rnd
    ({ bimodal := bim1, tables := ar.1, ghist := ghist1 }, ar.2)


/-! ## Specification-side definitions (for refinement statements)

These follow the wording of the specification (spec.md §3 "Saturating
counter", §4.4 step 4) rather than the source, for comparison against
the definitions translated from the source above. -/

/-- Specification-side saturating transition (spec §3): on TAKEN,
`min (c+1) max`; on NOTTAKEN, `c - 1` clamped at 0 (automatic on Nat). -/
def satUpd (maxv c outcome : Nat) : Nat :=
  if outcome = TAKEN then min (c + 1) maxv else c - 1

/-- Specification-side threshold (spec §3): TAKEN iff `c ≥ (max+1)/2`. -/
def satThresh (maxv c : Nat) : Nat :=
  if (maxv + 1) / 2 ≤ c then TAKEN else NOTTAKEN

/-- Specification-side allocation scan (spec §4.4 step 4): walk tables
from shortest history to longest; in the first entry with `u == 0`,
set `tag = tag_t`, `ctr = TAGE_CTR_INIT ± 1` biased toward the outcome
and clamped to 0..7, `u = 0`, and stop; each entry skipped because
`u > 0` decays `u` by one exactly when its random draw lands in the
1-in-64 event `draw & 0x3F == 0`. -/
def tage_alloc_spec (pc ghist outcome : Nat) :
    List Nat → (Nat → Nat → TageEntry) → List Nat →
    ((Nat → Nat → TageEntry) × List Nat)
  | [], tables, rnd => (tables, rnd)
  | t :: rest, tables, rnd =>
    let idx := tage_index pc ghist t
    let e := tables t idx
    if e.u = 0 then
      let c1 : Nat :=
        min 7 (if outcome = TAKEN then TAGE_CTR_INIT + 1 else TAGE_CTR_INIT - 1)
      (updT tables t idx { tag := tage_tag pc ghist t, ctr := c1, u := 0 }, rnd)
    else
      let tables2 :=
        if rnd.headD 0 &&& 0x3F = 0 then updT tables t idx { e with u := e.u - 1 }
        else tables
      tage_alloc_spec pc ghist outcome rest tables2 rnd.tail


/-! ## Driver (predictor.cpp lines 540-609) -/

structure SystemState where
  bpType : BPVariant
  gshare : GshareState
  tournament : TournamentState
  tage : TageState

/-- init_predictor (lines 540-558).  The C driver initializes only the
selected variant's tables; here all three are initialized so the state
is total — the unselected components are never read or written. -/
def init_predictor (v : BPVariant) : SystemState :=
  { bpType := v,
    gshare := init_gshare,
    tournament := init_tournament,
    tage := init_tage }

/-- make_prediction (lines 564-584).  Returned as a `(value, state)`
pair: the source performs no writes on any path, so the state component
is passed through unchanged. -/
def make_prediction (s : SystemState) (pc target direct : Nat) : Nat × SystemState :=
  match s.bpType with
  | BPVariant.STATIC => (TAKEN, s)
  | BPVariant.GSHARE => (gshare_predict s.gshare pc, s)
  | BPVariant.TOURNAMENT => (tournament_predict s.tournament pc, s)
  | BPVariant.CUSTOM => (tage_predict s.tage pc, s)

/-- train_predictor (lines 591-609): dispatch guarded by
`if (condition)`; only the `CUSTOM` (TAGE) path consumes the `rand()`
stream. -/
def train_predictor (s : SystemState) (pc target outcome condition call ret direct : Nat)
    (rnd : List Nat) : SystemState × List Nat :=
  if condition ≠ 0 then
    match s.bpType with
    | BPVariant.STATIC => (s, rnd)
    | BPVariant.GSHARE => ({ s with gshare := train_gshare s.gshare pc outcome }, rnd)
    | BPVariant.TOURNAMENT =>
      ({ s with tournament := train_tournament s.tournament pc outcome }, rnd)
    | BPVariant.CUSTOM =>
      let r := train_tage s.tage pc outcome rnd
      ({ s with tage := r.1 }, r.2)
  else (s, rnd)

/-! ## Event traces -/

/-- One driver call: either a prediction request or a training event
with the full argument list of `train_predictor`. -/
inductive BPEvent where
  | pred (pc target direct : Nat)
  | train (pc target outcome condition call ret direct : Nat)

/-- Running a sequence of driver calls, threading the `rand()` stream. -/
def system_run : SystemState → List BPEvent → List Nat → SystemState
  | s, [], _ => s
  | s, BPEvent.pred pc tg d :: es, rnd =>
    system_run (make_prediction s pc tg d).2 es rnd
  | s, BPEvent.train pc tg o c cl r d :: es, rnd =>
    let res := train_predictor s pc tg o c cl r d rnd
    system_run res.1 es res.2



/-! ## Invariant predicates -/

/-- The 2-bit switches have an explicit arm for this counter value, so
the defensive `default` branch ("Undefined state" warning) is not taken. -/
def covered2b (c : Nat) : Prop := c = SN ∨ c = WN ∨ c = WT ∨ c = ST

/-- The 3-bit switches have an explicit arm for this counter value, so
the defensive `default` branch ("Undefined state" warning) is not taken. -/
def covered3b (c : Nat) : Prop :=
  c = SSSN ∨ c = SSN ∨ c = NS ∨ c = NW ∨ c = TW ∨ c = TS ∨ c = SST ∨ c = SSST

/-- Range invariant for one TAGE entry: 3-bit ctr, 2-bit useful counter. -/
def Entry_ok (e : TageEntry) : Prop := e.ctr ≤ 7 ∧ e.u ≤ 3

/-- Range invariant for all TAGE tagged entries. -/
def Tables_ok (f : Nat → Nat → TageEntry) : Prop := ∀ a b, Entry_ok (f a b)

/-- Range invariant over the whole system state: every 2-bit counter in
0..3, every 3-bit counter in 0..7. -/
def SysCountersOk (s : SystemState) : Prop :=
  (∀ i, s.gshare.bht i ≤ 3)
  ∧ (∀ i, s.tournament.localPred i ≤ 7)
  ∧ (∀ i, s.tournament.globalPred i ≤ 3)
  ∧ (∀ i, s.tournament.chooser i ≤ 3)
  ∧ (∀ i, s.tage.bimodal i ≤ 3)
  ∧ Tables_ok s.tage.tables


/-! ## Helper lemmas -/

theorem counterUpdate2b_le (c o : Nat) (h : c ≤ 3) : counterUpdate2b c o ≤ 3 := by
  interval_cases c <;> simp [counterUpdate2b, SN, WN, WT, ST] <;> split <;> decide

theorem counterUpdate3b_le (c o : Nat) (h : c ≤ 7) : counterUpdate3b c o ≤ 7 := by
  interval_cases c <;>
    simp [counterUpdate3b, SSSN, SSN, NS, NW, TW, TS, SST, SSST] <;> split <;> decide

theorem upd_le {f : Nat → Nat} {B : Nat} (hf : ∀ j, f j ≤ B) {i v : Nat}
    (hv : v ≤ B) : ∀ j, upd f i v j ≤ B := by
  intro j
  unfold upd
  split
  · exact hv
  · exact hf j

theorem tag_mask_eq : (1 <<< TAGE_TAG_BITS) - 1 = 127 := by decide

theorem tage_tag_le (pc hist t : Nat) : tage_tag pc hist t ≤ 127 := by
  unfold tage_tag
  rw [tag_mask_eq]
  exact Nat.and_le_right

theorem foldl_scan_no_match (ghist pc : Nat) (tables : Nat → Nat → TageEntry)
    (h : ∀ t, ¬ (tables t (tage_index pc ghist t)).tag = tage_tag pc ghist t) :
    ∀ (ts : List Nat) (acc : Option (Nat × Nat) × Option (Nat × Nat)),
      ts.foldl (tage_scan_step ghist pc tables) acc = acc := by
  intro ts
  induction ts with
  | nil => intro acc; rfl
  | cons t rest ih =>
    intro acc
    have hstep : tage_scan_step ghist pc tables acc t = acc := by
      unfold tage_scan_step
      simp [h t]
    rw [List.foldl_cons, hstep, ih acc]

/-! ## Claims -/

/-- C1, counterexample: immediately after `init_tournament` the local
3-bit counter at index 0 equals `T_LPT_INIT = 1`, not 4 as claimed. -/
theorem tournament_init_c1_counterexample :
    init_tournament.localPred 0 = 1 ∧ 1 < 4 := by decide

/-- C1, amended: immediately after `init_tournament`, every local 3-bit
counter equals `T_LPT_INIT = 1`, every global 2-bit counter equals
`T_GPT_INIT = 1` (weakly-not-taken), and every chooser counter equals
`T_CHOOSER_INIT = 1` (weakly prefer-local); local histories and the GHR
are zero. -/
theorem tournament_init_c1_amended :
    (∀ i, init_tournament.localPred i = T_LPT_INIT)
    ∧ (∀ i, init_tournament.globalPred i = T_GPT_INIT)
    ∧ (∀ i, init_tournament.chooser i = T_CHOOSER_INIT)
    ∧ T_LPT_INIT = 1 ∧ T_GPT_INIT = 1 ∧ T_CHOOSER_INIT = 1
    ∧ (∀ i, init_tournament.localHistory i = 0)
    ∧ init_tournament.ghr = 0 :=
  ⟨fun _ => rfl, fun _ => rfl, fun _ => rfl, rfl, rfl, rfl, fun _ => rfl, rfl⟩

/-- C2, counterexample: on a fresh Gshare predictor, after one
`train_predictor(0x1000, outcome = 1, is_conditional = 1)` the next
`make_prediction(0x1000)` returns `NOTTAKEN` (= 0), not `TAKEN` as
claimed: the trained entry is at index 0x1000 but the history shift
moves the lookup index to 0x1001. -/
theorem gshare_c2_counterexample :
    (make_prediction
      (train_predictor (init_predictor BPVariant.GSHARE) 0x1000 0 1 1 0 0 0 []).1
      0x1000 0 0).1 = NOTTAKEN
    ∧ NOTTAKEN = 0 ∧ TAKEN = 1 := by decide

/-- C2, amended: on a fresh Gshare predictor the first
`make_prediction(0x1000)` returns NOTTAKEN; one taken train updates
`BHT[0x1000]` to `WT = 2` and shifts `ghistory` to 1, so the next
`make_prediction(0x1000)` indexes entry 0x1001 (still WN) and returns
NOTTAKEN; a second identical train updates `BHT[0x1001]` to `WT` (and
leaves `BHT[0x1000]` at `WT`, not `ST`), after which
`make_prediction(0x1000)` indexes entry 0x1003 and again returns
NOTTAKEN. -/
theorem gshare_bringup_c2_amended :
    (make_prediction (init_predictor BPVariant.GSHARE) 0x1000 0 0).1 = NOTTAKEN
    ∧ ((train_predictor (init_predictor BPVariant.GSHARE)
          0x1000 0 1 1 0 0 0 []).1.gshare.bht 0x1000 = WT)
    ∧ ((train_predictor (init_predictor BPVariant.GSHARE)
          0x1000 0 1 1 0 0 0 []).1.gshare.ghistory = 1)
    ∧ ((make_prediction
          (train_predictor (init_predictor BPVariant.GSHARE)
            0x1000 0 1 1 0 0 0 []).1 0x1000 0 0).1 = NOTTAKEN)
    ∧ ((train_predictor
          (train_predictor (init_predictor BPVariant.GSHARE)
            0x1000 0 1 1 0 0 0 []).1
          0x1000 0 1 1 0 0 0 []).1.gshare.bht 0x1001 = WT)
    ∧ ((train_predictor
          (train_predictor (init_predictor BPVariant.GSHARE)
            0x1000 0 1 1 0 0 0 []).1
          0x1000 0 1 1 0 0 0 []).1.gshare.bht 0x1000 = WT)
    ∧ ((train_predictor
          (train_predictor (init_predictor BPVariant.GSHARE)
            0x1000 0 1 1 0 0 0 []).1
          0x1000 0 1 1 0 0 0 []).1.gshare.ghistory = 3)
    ∧ ((make_prediction
          (train_predictor
            (train_predictor (init_predictor BPVariant.GSHARE)
              0x1000 0 1 1 0 0 0 []).1
            0x1000 0 1 1 0 0 0 []).1 0x1000 0 0).1 = NOTTAKEN) := by
  decide

/-- C4: for every variant, `make_prediction` passes the predictor state
through unchanged, so two successive calls with the same pc and no
intervening train return the same value. -/
theorem make_prediction_pure_c4 (s : SystemState) (pc target direct : Nat) :
    (make_prediction s pc target direct).2 = s
    ∧ (make_prediction (make_prediction s pc target direct).2 pc target direct).1
        = (make_prediction s pc target direct).1 := by
  obtain ⟨v, g, tn, tg⟩ := s
  cases v <;> exact ⟨rfl, rfl⟩

/-- C8: for every variant and all arguments, `train_predictor` with
`is_conditional = 0` leaves the whole predictor state (and the random
stream) unchanged. -/
theorem train_predictor_nonconditional_c8
    (s : SystemState) (pc target outcome call ret direct : Nat) (rnd : List Nat) :
    train_predictor s pc target outcome 0 call ret direct rnd = (s, rnd) := by
  simp [train_predictor]

/-- C9: for every pc, history and table index, `tage_tag` is at most
0x7F — the mask `(1u << TAGE_TAG_BITS) - 1` evaluates to 0x7F — hence
below the 0xFFFF sentinel stored at initialization, so a never-allocated
entry never tag-matches: on the freshly initialized TAGE state the
provider/alternate scan finds nothing for any pc. -/
theorem tage_tag_sentinel_c9 (pc hist t : Nat) :
    tage_tag pc hist t ≤ 127
    ∧ (1 <<< TAGE_TAG_BITS) - 1 = 127
    ∧ tage_tag pc hist t < 0xFFFF
    ∧ (init_tage.tables t (tage_index pc init_tage.ghist t)).tag = 0xFFFF
    ∧ tage_scan init_tage pc = (none, none) := by
  refine ⟨tage_tag_le pc hist t, tag_mask_eq,
    Nat.lt_of_le_of_lt (tage_tag_le pc hist t) (by decide), rfl, ?_⟩
  unfold tage_scan
  exact foldl_scan_no_match _ _ _
    (fun u => by
      have h1 := tage_tag_le pc init_tage.ghist u
      have h2 : (init_tage.tables u (tage_index pc init_tage.ghist u)).tag = 65535 := rfl
      rw [h2]
      omega) _ _

/-- C10: the Gshare and Tournament training paths are deterministic —
the post-state does not depend on the random stream — while `train_tage`
is not: from one concrete state (a fresh TAGE state whose table-0 entry
at index 0 has `u = 1`) and identical inputs, two different random
draws produce different post-states (the skipped entry keeps `u = 1`
under one draw and decays to `u = 0` under the other). -/
theorem train_determinism_c10 :
    (∀ (g : GshareState) (tn : TournamentState) (tg : TageState)
        (pc target outcome call ret direct : Nat) (rnd1 rnd2 : List Nat),
      (train_predictor ⟨BPVariant.GSHARE, g, tn, tg⟩
          pc target outcome 1 call ret direct rnd1).1
        = (train_predictor ⟨BPVariant.GSHARE, g, tn, tg⟩
            pc target outcome 1 call ret direct rnd2).1)
    ∧ (∀ (g : GshareState) (tn : TournamentState) (tg : TageState)
        (pc target outcome call ret direct : Nat) (rnd1 rnd2 : List Nat),
      (train_predictor ⟨BPVariant.TOURNAMENT, g, tn, tg⟩
          pc target outcome 1 call ret direct rnd1).1
        = (train_predictor ⟨BPVariant.TOURNAMENT, g, tn, tg⟩
            pc target outcome 1 call ret direct rnd2).1)
    ∧ (((train_tage
          { init_tage with
            tables := updT init_tage.tables 0 0 { tag := 0xFFFF, ctr := 4, u := 1 } }
          0 1 [0]).1.tables 0 0).u = 0)
    ∧ (((train_tage
          { init_tage with
            tables := updT init_tage.tables 0 0 { tag := 0xFFFF, ctr := 4, u := 1 } }
          0 1 [1]).1.tables 0 0).u = 1) := by
  refine ⟨fun g tn tg pc target outcome call ret direct rnd1 rnd2 => rfl,
    fun g tn tg pc target outcome call ret direct rnd1 rnd2 => rfl, ?_, ?_⟩ <;> decide

/-- C7: `train_gshare` updates `BHT[(pc & mask) ^ (ghistory & mask)]`
with the 2-bit saturating transition using the pre-update history, then
sets `ghistory := (ghistory << 1) | outcome` with no mask applied, so
the live history can exceed `ghistory_bits` bits (after 16 all-taken
trains from init it holds 0xFFFF > mask); only the low `ghistory_bits`
bits of the history participate in indexing, on predicts and on trains. -/
theorem gshare_train_unmasked_c7 (bht : Nat → Nat) (gh pc outcome : Nat) :
    (train_gshare ⟨bht, gh⟩ pc outcome =
      { bht := upd bht (gshare_index ⟨bht, gh⟩ pc)
          (counterUpdate2b (bht (gshare_index ⟨bht, gh⟩ pc)) outcome),
        ghistory := (gh <<< 1) ||| outcome })
    ∧ gshare_index ⟨bht, gh⟩ pc = gshare_index ⟨bht, gh % 2 ^ ghistoryBits⟩ pc
    ∧ gshare_predict ⟨bht, gh⟩ pc = gshare_predict ⟨bht, gh % 2 ^ ghistoryBits⟩ pc
    ∧ (train_gshare ⟨bht, gh⟩ pc outcome).bht
        = (train_gshare ⟨bht, gh % 2 ^ ghistoryBits⟩ pc outcome).bht
    ∧ (Nat.iterate (fun s => train_gshare s 0 1) 16 init_gshare).ghistory = 65535
    ∧ 2 ^ ghistoryBits - 1 < 65535 := by
  have hidx : gshare_index ⟨bht, gh⟩ pc = gshare_index ⟨bht, gh % 2 ^ ghistoryBits⟩ pc := by
    unfold gshare_index
    have h1 : (1 <<< ghistoryBits) - 1 = 2 ^ ghistoryBits - 1 := by
      simp [Nat.shiftLeft_eq]
    simp only [h1]
    rw [Nat.and_pow_two_sub_one_eq_mod, Nat.and_pow_two_sub_one_eq_mod,
      Nat.and_pow_two_sub_one_eq_mod, Nat.mod_mod]
  refine ⟨rfl, hidx, ?_, ?_, by decide, by decide⟩
  · unfold gshare_predict
    rw [hidx]
  · unfold train_gshare
    simp only [hidx]


/-! ## Range-invariant preservation (C3) -/

theorem le_three_covered2b (c : Nat) (h : c ≤ 3) : covered2b c := by
  interval_cases c <;> simp [covered2b, SN, WN, WT, ST]

theorem le_seven_covered3b (c : Nat) (h : c ≤ 7) : covered3b c := by
  interval_cases c <;> simp [covered3b, SSSN, SSN, NS, NW, TW, TS, SST, SSST]

theorem updT_pres {P : TageEntry → Prop} {f : Nat → Nat → TageEntry}
    (hf : ∀ a b, P (f a b)) {t i : Nat} {e : TageEntry} (he : P e) :
    ∀ a b, P (updT f t i e a b) := by
  intro a b
  unfold updT
  split
  · exact he
  · exact hf a b

theorem make_prediction_snd (s : SystemState) (pc target direct : Nat) :
    (make_prediction s pc target direct).2 = s := by
  obtain ⟨v, g, tn, tg⟩ := s
  cases v <;> rfl

theorem train_gshare_ok (s : GshareState) (pc outcome : Nat)
    (h : ∀ i, s.bht i ≤ 3) : ∀ i, (train_gshare s pc outcome).bht i ≤ 3 := by
  unfold train_gshare
  exact upd_le h (counterUpdate2b_le _ _ (h _))

theorem train_tournament_ok (s : TournamentState) (pc outcome : Nat)
    (hl : ∀ i, s.localPred i ≤ 7) (hg : ∀ i, s.globalPred i ≤ 3)
    (hc : ∀ i, s.chooser i ≤ 3) :
    (∀ i, (train_tournament s pc outcome).localPred i ≤ 7)
    ∧ (∀ i, (train_tournament s pc outcome).globalPred i ≤ 3)
    ∧ (∀ i, (train_tournament s pc outcome).chooser i ≤ 3) := by
  unfold train_tournament
  refine ⟨upd_le hl (counterUpdate3b_le _ _ (hl _)),
    upd_le hg (counterUpdate2b_le _ _ (hg _)), ?_⟩
  dsimp only
  split
  · split
    · exact upd_le hc (counterUpdate2b_le _ _ (hc _))
    · split
      · exact upd_le hc (counterUpdate2b_le _ _ (hc _))
      · exact hc
  · exact hc

theorem clamp7_le (c : Nat) : (if c > 7 then 7 else c) ≤ 7 := by
  split
  · exact Nat.le_refl 7
  · omega

theorem tage_allocLoop_ok (pc ghist outcome : Nat) :
    ∀ (ts : List Nat) (tables : Nat → Nat → TageEntry) (rnd : List Nat),
      Tables_ok tables →
      Tables_ok (tage_allocLoop pc ghist outcome ts tables rnd).1 := by
  intro ts
  induction ts with
  | nil => intro tables rnd h; exact h
  | cons t rest ih =>
    intro tables rnd h
    simp only [tage_allocLoop]
    split
    · dsimp only
      exact updT_pres h ⟨clamp7_le _, Nat.zero_le 3⟩
    · apply ih
      split
      · exact updT_pres h ⟨(h t _).1, Nat.le_trans (Nat.sub_le _ _) (h t _).2⟩
      · exact h

theorem train_tage_ok (s : TageState) (pc outcome : Nat) (rnd : List Nat)
    (hb : ∀ i, s.bimodal i ≤ 3) (ht : Tables_ok s.tables) :
    (∀ i, (train_tage s pc outcome rnd).1.bimodal i ≤ 3)
    ∧ Tables_ok (train_tage s pc outcome rnd).1.tables := by
  rcases hscan : tage_scan s pc with ⟨pr, al⟩
  unfold train_tage
  rw [hscan]
  cases pr with
  | some p =>
    dsimp only
    constructor
    · intro i
      split
      · exact hb i
      · refine upd_le hb ?_ i
        have hbi := hb (pc &&& (TAGE_BIMODAL_SIZE - 1))
        split
        · split
          · simp only [ST] at *; omega
          · exact hbi
        · split
          · omega
          · exact hbi
    · apply updT_pres ht
      constructor
      · dsimp only
        split
        · split
          · exact counterUpdate3b_le _ _ (ht _ _).1
          · exact counterUpdate3b_le _ _ (ht _ _).1
        · split
          · exact counterUpdate3b_le _ _ (ht _ _).1
          · exact counterUpdate3b_le _ _ (ht _ _).1
      · dsimp only
        split
        · split
          · exact counterUpdate2b_le _ _ (counterUpdate2b_le _ _ (ht _ _).2)
          · exact counterUpdate2b_le _ _ (ht _ _).2
        · split
          · exact counterUpdate2b_le _ _ (ht _ _).2
          · exact (ht _ _).2
  | none =>
    dsimp only
    refine ⟨upd_le hb (counterUpdate2b_le _ _ (hb _)), ?_⟩
    exact tage_allocLoop_ok _ _ _ _ _ _ ht

theorem init_predictor_ok (v : BPVariant) : SysCountersOk (init_predictor v) :=
  ⟨fun _ => (by decide : WN ≤ 3),
   fun _ => (by decide : T_LPT_INIT ≤ 7),
   fun _ => (by decide : T_GPT_INIT ≤ 3),
   fun _ => (by decide : T_CHOOSER_INIT ≤ 3),
   fun _ => (by decide : WT ≤ 3),
   fun _ _ => ⟨(by decide : TAGE_CTR_INIT ≤ 7), (by decide : TAGE_U_INIT ≤ 3)⟩⟩

theorem train_predictor_ok (s : SystemState)
    (pc target outcome condition call ret direct : Nat) (rnd : List Nat)
    (h : SysCountersOk s) :
    SysCountersOk (train_predictor s pc target outcome condition call ret direct rnd).1 := by
  obtain ⟨v, g, tn, tg⟩ := s
  obtain ⟨h1, h2, h3, h4, h5, h6⟩ := h
  unfold train_predictor
  split
  · cases v with
    | STATIC => exact ⟨h1, h2, h3, h4, h5, h6⟩
    | GSHARE => exact ⟨train_gshare_ok _ _ _ h1, h2, h3, h4, h5, h6⟩
    | TOURNAMENT =>
      obtain ⟨p1, p2, p3⟩ := train_tournament_ok tn pc outcome h2 h3 h4
      exact ⟨h1, p1, p2, p3, h5, h6⟩
    | CUSTOM =>
      obtain ⟨p1, p2⟩ := train_tage_ok tg pc outcome rnd h5 h6
      exact ⟨h1, h2, h3, h4, p1, p2⟩
  · exact ⟨h1, h2, h3, h4, h5, h6⟩

theorem system_run_ok (events : List BPEvent) :
    ∀ (s : SystemState) (rnd : List Nat),
      SysCountersOk s → SysCountersOk (system_run s events rnd) := by
  induction events with
  | nil => intro s rnd h; exact h
  | cons e rest ih =>
    intro s rnd h
    cases e with
    | pred pc tg d =>
      simp only [system_run]
      exact ih _ _ (by rw [make_prediction_snd]; exact h)
    | train pc tg o c cl r d =>
      simp only [system_run]
      exact ih _ _ (train_predictor_ok _ _ _ _ _ _ _ _ _ h)

/-- C3: for every variant and every sequence of predict/train driver
calls starting from initialization (with any random stream), every
2-bit counter — Gshare BHT entries, Tournament global and chooser
counters, the TAGE bimodal counters and useful counters `u` — stays in
0..3 and every 3-bit counter — Tournament local counters and TAGE
tagged-entry `ctr`, newly allocated entries included — stays in 0..7;
consequently every such counter is covered by an explicit arm of the
prediction/update switches, so their defensive `default` branches are
unreachable. -/
theorem counters_in_range_c3 (v : BPVariant) (events : List BPEvent) (rnd : List Nat) :
    SysCountersOk (system_run (init_predictor v) events rnd)
    ∧ (∀ i, covered2b ((system_run (init_predictor v) events rnd).gshare.bht i))
    ∧ (∀ i, covered3b ((system_run (init_predictor v) events rnd).tournament.localPred i))
    ∧ (∀ i, covered2b ((system_run (init_predictor v) events rnd).tournament.globalPred i))
    ∧ (∀ i, covered2b ((system_run (init_predictor v) events rnd).tournament.chooser i))
    ∧ (∀ i, covered2b ((system_run (init_predictor v) events rnd).tage.bimodal i))
    ∧ (∀ a b, covered3b (((system_run (init_predictor v) events rnd).tage.tables a b).ctr))
    ∧ (∀ a b, covered2b (((system_run (init_predictor v) events rnd).tage.tables a b).u)) := by
  have h := system_run_ok events (init_predictor v) rnd (init_predictor_ok v)
  obtain ⟨h1, h2, h3, h4, h5, h6⟩ := h
  exact ⟨⟨h1, h2, h3, h4, h5, h6⟩,
    fun i => le_three_covered2b _ (h1 i),
    fun i => le_seven_covered3b _ (h2 i),
    fun i => le_three_covered2b _ (h3 i),
    fun i => le_three_covered2b _ (h4 i),
    fun i => le_three_covered2b _ (h5 i),
    fun a b => le_seven_covered3b _ (h6 a b).1,
    fun a b => le_three_covered2b _ (h6 a b).2⟩


/-! ## Saturating-counter refinement lemmas -/

theorem counterUpdate2b_eq_satUpd (c o : Nat) (h : c ≤ 3) :
    counterUpdate2b c o = satUpd 3 c o := by
  rcases eq_or_ne o TAKEN with ho | ho <;> interval_cases c <;>
    simp [counterUpdate2b, satUpd, ho, SN, WN, WT, ST]

theorem counterUpdate3b_eq_satUpd (c o : Nat) (h : c ≤ 7) :
    counterUpdate3b c o = satUpd 7 c o := by
  rcases eq_or_ne o TAKEN with ho | ho <;> interval_cases c <;>
    simp [counterUpdate3b, satUpd, ho, SSSN, SSN, NS, NW, TW, TS, SST, SSST]

theorem predict2b_eq_satThresh (c : Nat) (h : c ≤ 3) :
    predict2b c = satThresh 3 c := by
  interval_cases c <;> simp [predict2b, satThresh, SN, WN, WT, ST]

theorem predict3b_eq_satThresh (c : Nat) (h : c ≤ 7) :
    predict3b c = satThresh 7 c := by
  interval_cases c <;>
    simp [predict3b, satThresh, SSSN, SSN, NS, NW, TW, TS, SST, SSST]

/-- C5: in Tournament training the local and global predictions are read
from the pre-update counters first; then the local counter receives a
3-bit saturating update and the global counter a 2-bit saturating
update with the outcome; the chooser at `global_index` is updated only
when the pre-update local and global predictions disagree — a
saturating step toward TAKEN (prefer global) when the global prediction
matched the outcome, toward NOTTAKEN (prefer local) when the local
prediction matched — and is left unchanged when they agree; finally the
local history and the GHR are shifted left by one, ORed with the
outcome, and masked.  Saturating update and threshold are the
specification-side `satUpd`/`satThresh`. -/
theorem tournament_train_order_c5 (s : TournamentState) (pc outcome : Nat) :
    let lhti := pc &&& (T_LHT_ENTRIES - 1)
    let li := s.localHistory lhti &&& (T_LPT_ENTRIES - 1)
    let gi := s.ghr &&& (T_GPT_ENTRIES - 1)
    s.localPred li ≤ 7 → s.globalPred gi ≤ 3 → s.chooser gi ≤ 3 →
    (train_tournament s pc outcome).localPred
        = upd s.localPred li (satUpd 7 (s.localPred li) outcome)
    ∧ (train_tournament s pc outcome).globalPred
        = upd s.globalPred gi (satUpd 3 (s.globalPred gi) outcome)
    ∧ (train_tournament s pc outcome).chooser
        = (if satThresh 7 (s.localPred li) ≠ satThresh 3 (s.globalPred gi) then
             (if satThresh 3 (s.globalPred gi) = outcome then
                upd s.chooser gi (satUpd 3 (s.chooser gi) TAKEN)
              else if satThresh 7 (s.localPred li) = outcome then
                upd s.chooser gi (satUpd 3 (s.chooser gi) NOTTAKEN)
              else s.chooser)
           else s.chooser)
    ∧ (train_tournament s pc outcome).localHistory
        = upd s.localHistory lhti
            (((s.localHistory lhti <<< 1) ||| outcome) &&& (T_LHT_ENTRIES - 1))
    ∧ (train_tournament s pc outcome).ghr
        = ((s.ghr <<< 1) ||| outcome) &&& (T_GPT_ENTRIES - 1) := by
  intro lhti li gi hl hg hc
  unfold train_tournament
  refine ⟨?_, ?_, ?_, rfl, rfl⟩
  · dsimp only
    rw [counterUpdate3b_eq_satUpd _ _ hl]
  · dsimp only
    rw [counterUpdate2b_eq_satUpd _ _ hg]
  · dsimp only
    rw [predict3b_eq_satThresh _ hl, predict2b_eq_satThresh _ hg,
      counterUpdate2b_eq_satUpd _ _ hc, counterUpdate2b_eq_satUpd _ _ hc]

/-- Witness for C5: the theorem applied to the freshly initialized
Tournament state at pc 0, outcome TAKEN (all hypotheses hold there). -/
theorem tournament_train_order_c5_witness :
    (init_tournament.localPred
        (init_tournament.localHistory (0 &&& (T_LHT_ENTRIES - 1)) &&&
          (T_LPT_ENTRIES - 1)) ≤ 7
      ∧ init_tournament.globalPred (init_tournament.ghr &&& (T_GPT_ENTRIES - 1)) ≤ 3
      ∧ init_tournament.chooser (init_tournament.ghr &&& (T_GPT_ENTRIES - 1)) ≤ 3)
    ∧ (train_tournament init_tournament 0 1).ghr
        = ((init_tournament.ghr <<< 1) ||| 1) &&& (T_GPT_ENTRIES - 1) :=
  ⟨⟨by decide, by decide, by decide⟩,
    (tournament_train_order_c5 init_tournament 0 1
      (by decide) (by decide) (by decide)).2.2.2.2⟩


/-! ## TAGE allocation refinement (C6) -/

theorem alloc_ctr_eq (outcome : Nat) (ho : outcome ≤ 1) :
    (if (if outcome ≠ 0 then TAGE_CTR_INIT + 1 else TAGE_CTR_INIT - 1) > 7 then 7
     else if outcome ≠ 0 then TAGE_CTR_INIT + 1 else TAGE_CTR_INIT - 1)
    = min 7 (if outcome = TAKEN then TAGE_CTR_INIT + 1 else TAGE_CTR_INIT - 1) := by
  interval_cases outcome <;> decide

theorem tage_allocLoop_eq_spec (pc ghist outcome : Nat) (ho : outcome ≤ 1) :
    ∀ (ts : List Nat) (tables : Nat → Nat → TageEntry) (rnd : List Nat),
      tage_allocLoop pc ghist outcome ts tables rnd
        = tage_alloc_spec pc ghist outcome ts tables rnd := by
  intro ts
  induction ts with
  | nil => intro tables rnd; rfl
  | cons t rest ih =>
    intro tables rnd
    simp only [tage_allocLoop, tage_alloc_spec]
    split
    · rw [alloc_ctr_eq outcome ho]
    · exact ih _ _

/-- C6: in TAGE training with no tag match anywhere (no provider), the
post-state's tagged tables are exactly the result of the
specification-side allocation scan `tage_alloc_spec` — tables walked
from shortest history (t = 0) upward, the first entry with `u == 0`
claimed with `tag = tag_t`, `ctr = TAGE_CTR_INIT ± 1` biased toward the
outcome and clamped, `u = 0`, the scan stopping there, and each skipped
`u > 0` entry decaying `u` on its 1-in-64 random draw — the bimodal
counter at the PC's bimodal index receives a 2-bit saturating update
with the outcome, and the remaining random stream is what the scan left. -/
theorem tage_train_alloc_c6 (s : TageState) (pc outcome : Nat) (rnd : List Nat)
    (hnp : (tage_scan s pc).1 = none)
    (hb : s.bimodal (pc &&& (TAGE_BIMODAL_SIZE - 1)) ≤ 3)
    (ho : outcome ≤ 1) :
    (train_tage s pc outcome rnd).1.bimodal
        = upd s.bimodal (pc &&& (TAGE_BIMODAL_SIZE - 1))
            (satUpd 3 (s.bimodal (pc &&& (TAGE_BIMODAL_SIZE - 1))) outcome)
    ∧ (train_tage s pc outcome rnd).1.tables
        = (tage_alloc_spec pc s.ghist outcome [0, 1, 2, 3, 4, 5, 6] s.tables rnd).1
    ∧ (train_tage s pc outcome rnd).2
        = (tage_alloc_spec pc s.ghist outcome [0, 1, 2, 3, 4, 5, 6] s.tables rnd).2
    ∧ (train_tage s pc outcome rnd).1.ghist
        = ((s.ghist <<< 1) ||| (outcome &&& 1)) &&& ((1 <<< ghistoryBits) - 1) := by
  rcases hscan : tage_scan s pc with ⟨pr, al⟩
  rw [hscan] at hnp
  simp only at hnp
  subst hnp
  unfold train_tage
  rw [hscan]
  dsimp only
  refine ⟨?_, ?_, ?_, rfl⟩
  · rw [counterUpdate2b_eq_satUpd _ _ hb]
  · rw [tage_allocLoop_eq_spec pc s.ghist outcome ho]
  · rw [tage_allocLoop_eq_spec pc s.ghist outcome ho]

/-- Witness for C6: the theorem applied to the freshly initialized TAGE
state (where no entry tag-matches) at pc 0, outcome TAKEN. -/
theorem tage_train_alloc_c6_witness :
    ((tage_scan init_tage 0).1 = none
      ∧ init_tage.bimodal (0 &&& (TAGE_BIMODAL_SIZE - 1)) ≤ 3
      ∧ (1 : Nat) ≤ 1)
    ∧ (train_tage init_tage 0 1 []).1.ghist
        = ((init_tage.ghist <<< 1) ||| (1 &&& 1)) &&& ((1 <<< ghistoryBits) - 1) :=
  ⟨⟨by decide, by decide, by decide⟩,
    (tage_train_alloc_c6 init_tage 0 1 [] (by decide) (by decide) (by decide)).2.2.2⟩

end BP
